import Mathlib

/-!
Verification development for the asn1tools repository fragment: the command
line interface in asn1tools/init and the benchmark constants in
examples/benchmarks/codecs.py. The codec engines are not part of this
repository fragment and the CLI models treat them as opaque fallible
operations.

Machine integers do not occur: the Python code manipulates strings, byte
strings (modelled as List Nat with entries below 256) and small naturals.
-/

namespace Asn1tools

/-- Python exception classes that the CLI glue distinguishes: TypeError
(raised by convert_hexstring when unhexlify fails), DecodeError (from the
input codec), and every other exception, which the stdin loop does not
catch. -/
inductive PyErr where
  | typeError (msg : String)
  | decodeError (msg : String)
  | other (msg : String)
deriving DecidableEq, Repr

/-- Decidable equality of results, used to evaluate the models on concrete
inputs. -/
instance {e a : Type} [DecidableEq e] [DecidableEq a] :
    DecidableEq (Except e a) := fun x y =>
  match x, y with
  | .ok v, .ok w =>
    if h : v = w then isTrue (by rw [h]) else isFalse (by simp [h])
  | .ok _, .error _ => isFalse (by simp)
  | .error _, .ok _ => isFalse (by simp)
  | .error v, .error w =>
    if h : v = w then isTrue (by rw [h]) else isFalse (by simp [h])

/-- Python str(e): the message carried by the exception. -/
def pyStr : PyErr → String
  | .typeError m => m
  | .decodeError m => m
  | .other m => m

/-- Value of one hexadecimal digit character, if it is one. -/
def hexDigitVal (c : Char) : Option Nat :=
  if '0' ≤ c ∧ c ≤ '9' then some (c.toNat - '0'.toNat)
  else if 'a' ≤ c ∧ c ≤ 'f' then some (c.toNat - 'a'.toNat + 10)
  else if 'A' ≤ c ∧ c ≤ 'F' then some (c.toNat - 'A'.toNat + 10)
  else none

/-- Pairwise scan of an even-length hex character list, as binascii does
after its parity check. -/
def unhexPairs : List Char → Except String (List Nat)
  | [] => .ok []
  | [_] => .error "Odd-length string"
  | c1 :: c2 :: rest =>
    match hexDigitVal c1, hexDigitVal c2 with
    | some hi, some lo => (unhexPairs rest).map (fun bs => (16 * hi + lo) :: bs)
    | _, _ => .error "Non-hexadecimal digit found"

/-- Model of binascii.unhexlify: the parity of the length is checked first,
then the digits are scanned left to right. -/
def unhexlify (s : String) : Except String (List Nat) :=
  if s.length % 2 = 1 then .error "Odd-length string"
  else unhexPairs s.toList

/-- Model of binascii.hexlify: each byte becomes two lowercase hex digit
bytes. -/
def hexChar (n : Nat) : Nat := if n < 10 then 48 + n else 87 + n

def hexlify (bs : List Nat) : List Nat :=
  bs.flatMap (fun b => [hexChar (b / 16), hexChar (b % 16)])

/-- Byte-string decode with the latin-1 codec: byte value = code point. -/
def latin1Decode (bs : List Nat) : String := String.mk (bs.map Char.ofNat)

/-- ASCII whitespace bytes removed by bytes.strip(). -/
def isPySpaceByte (b : Nat) : Bool := b ∈ [9, 10, 11, 12, 13, 32]

/-- Model of bytes.strip(): whitespace removed from both ends. -/
def stripBytes (bs : List Nat) : List Nat :=
  ((bs.dropWhile isPySpaceByte).reverse.dropWhile isPySpaceByte).reverse

/-- Model of str.strip with chars backslash-r backslash-n: those two
characters removed from both ends of the line. -/
def stripCRLF (s : String) : String :=
  let isCRLF : Char → Bool := fun c => c = '\r' || c = '\n'
  String.mk (((s.toList.dropWhile isCRLF).reverse.dropWhile isCRLF).reverse)

/-- Model of Python str.startswith: prefix test on the character lists (the
library string primitives are avoided so that everything reduces). -/
def strStarts (s p : String) : Bool := p.data.isPrefixOf s.data

/-- Model of a suffix test on the character lists. -/
def strEnds (s p : String) : Bool := p.data.reverse.isPrefixOf s.data.reverse

/-- Model of Python str.strip() with no argument: whitespace removed from
both ends. -/
def pyStrip (s : String) : String :=
  String.mk
    (((s.data.dropWhile Char.isWhitespace).reverse.dropWhile
      Char.isWhitespace).reverse)

/-- Accumulating splitter behind pySplit. -/
def pySplitAux : List Char → List Char → List String
  | [], acc => if acc = [] then [] else [String.mk acc.reverse]
  | c :: cs, acc =>
    if c.isWhitespace then
      if acc = [] then pySplitAux cs []
      else String.mk acc.reverse :: pySplitAux cs []
    else pySplitAux cs (c :: acc)

/-- Model of Python str.split() with no argument: split on whitespace runs,
no empty pieces. -/
def pySplit (s : String) : List String := pySplitAux s.data []

/-- Compiled specification as the CLI sees it: the core operations decode
and encode over an abstract runtime value type V. The core engines are not
part of this repository fragment; the CLI treats them as opaque fallible
functions. The Option Nat argument of encode models the optional indent
keyword argument. -/
structure CompiledSpec (V : Type) where
  decode : String → List Nat → Except PyErr V
  encode : String → V → Option Nat → Except PyErr (List Nat)

/-- Embedding of convert_hexstring: unhexlify (failure re-raised as
TypeError quoting the input), decode with the input spec, then re-encode;
for the textual output codecs gser, xer and jer the encoder is called with
indent 4 and the result stripped, otherwise the result is hexlified; the
returned string is the single line printed. -/
def _convert_hexstring {V : Type} (input_spec output_spec : CompiledSpec V)
    (output_codec type_name hexstring : String) : Except PyErr String :=
  match unhexlify hexstring with
  | .error e => .error (.typeError ("\x27" ++ hexstring ++ "\x27: " ++ e))
  | .ok encoded =>
    match input_spec.decode type_name encoded with
    | .error e => .error e
    | .ok decoded =>
      if output_codec ∈ (["gser", "xer", "jer"] : List String) then
        match output_spec.encode type_name decoded (some 4) with
        | .error e => .error e
        | .ok bs => .ok (latin1Decode (stripBytes bs))
      else
        match output_spec.encode type_name decoded none with
        | .error e => .error e
        | .ok bs => .ok (latin1Decode (hexlify bs))

/-- Embedding of the stdin loop of _do_convert: each stdin line is stripped
of carriage returns and newlines; an empty line is printed back; otherwise
the line is converted, a TypeError prints the line alone, a DecodeError
prints the line and then str(e), and any other exception terminates the
loop and propagates. The result is the list of stdout lines and the
uncaught exception, if one occurred. -/
def do_convert_stdin {V : Type} (input_spec output_spec : CompiledSpec V)
    (output_codec type_name : String) :
    List String → List String × Option PyErr
  | [] => ([], none)
  | line :: rest =>
    let hexstring := stripCRLF line
    if hexstring = "" then
      let r := do_convert_stdin input_spec output_spec output_codec type_name rest
      (hexstring :: r.1, r.2)
    else
      match _convert_hexstring input_spec output_spec output_codec type_name hexstring with
      | .ok out =>
        let r := do_convert_stdin input_spec output_spec output_codec type_name rest
        (out :: r.1, r.2)
      | .error (.typeError _) =>
        let r := do_convert_stdin input_spec output_spec output_codec type_name rest
        (hexstring :: r.1, r.2)
      | .error (.decodeError m) =>
        let r := do_convert_stdin input_spec output_spec output_codec type_name rest
        (hexstring :: m :: r.1, r.2)
      | .error e => ([], some e)

/-- Embedding of _do_convert after compilation: hexstring "-" selects the
stdin loop, any other hexstring is converted once, its exception, if any,
propagating to _main. -/
def _do_convert {V : Type} (input_spec output_spec : CompiledSpec V)
    (output_codec type_name hexstring : String) (stdinLines : List String) :
    List String × Option PyErr :=
  if hexstring = "-" then
    do_convert_stdin input_spec output_spec output_codec type_name stdinLines
  else
    match _convert_hexstring input_spec output_spec output_codec type_name hexstring with
    | .ok out => ([out], none)
    | .error e => ([], some e)

/-- Outcome of a CLI process: a normal exit with a code and an optional
stderr line, or an exception propagating out of _main (the --debug path). -/
inductive MainOutcome where
  | exited (code : Nat) (stderrLine : Option String)
  | raised (e : PyErr)
deriving DecidableEq, Repr

/-- Embedding of the tail of _main: with --debug the subcommand runs
unprotected, so its exception propagates; without it any BaseException e
becomes sys.exit of the string error-colon str(e), which prints that string
to stderr and exits with code 1; a normal return exits with code 0. -/
def main_run (debug : Bool) (result : Except PyErr Unit) : MainOutcome :=
  if debug then
    match result with
    | .ok _ => .exited 0 none
    | .error e => .raised e
  else
    match result with
    | .ok _ => .exited 0 none
    | .error e => .exited 1 (some ("error: " ++ pyStr e))

/-- Logging levels used by _main: logging.CRITICAL (the help text calls
verbosity 0 "disable", the spec "silent": only critical records pass, and
the program logs none), logging.WARNING and logging.DEBUG. -/
inductive LogLevel where
  | critical
  | warning
  | debug
deriving DecidableEq, Repr

/-- Choices of the --verbose argument in _main. -/
def verboseChoices : List Nat := [0, 1, 2]

/-- Default of the --verbose argument in _main. -/
def verboseDefault : Nat := 1

/-- The list levels in _main, indexed by the parsed verbosity. -/
def levels : List LogLevel := [.critical, .warning, .debug]

/-- Level selection in _main: levels[args.verbose]. -/
def logLevelOf (verbose : Nat) : Option LogLevel := levels[verbose]?

/-- Model of an argparse argument with choices: a supplied value is
accepted exactly when it is among the choices. -/
def verboseAccepted (v : Nat) : Prop := v ∈ verboseChoices

instance (v : Nat) : Decidable (verboseAccepted v) := by
  unfold verboseAccepted; infer_instance

/-- Choices of -i of the convert subparser in _main. -/
def convertInputCodecChoices : List String :=
  ["ber", "der", "jer", "per", "uper", "xer"]

/-- Choices of -o of the convert subparser in _main. -/
def convertOutputCodecChoices : List String :=
  ["ber", "der", "jer", "per", "uper", "xer", "gser"]

/-- Default of -i of the convert subparser in _main. -/
def convertInputCodecDefault : String := "ber"

/-- Default of -o of the convert subparser in _main. -/
def convertOutputCodecDefault : String := "gser"

/-- Choices of -i of the compile command parser of the shell. -/
def compileInputCodecChoices : List String :=
  ["ber", "der", "jer", "per", "uper", "xer"]

/-- Choices of -o of the compile command parser of the shell. -/
def compileOutputCodecChoices : List String :=
  ["ber", "der", "jer", "per", "uper", "xer", "gser"]

/-- Default of -i of the compile command parser of the shell. -/
def compileInputCodecDefault : String := "ber"

/-- Default of -o of the compile command parser of the shell. -/
def compileOutputCodecDefault : String := "gser"

/-- Parsed arguments of the shell compile command. -/
structure CompileArgs where
  input_codec : String
  output_codec : String
  specification : List String
deriving DecidableEq, Repr

/-- Argparse loop for the compile command of the shell: options -i and -o
take the next token as value and check it against their choices, any other
option-like token is rejected, remaining tokens are positionals, and at
least one positional (specification, nargs +) is required. Equals-sign and
abbreviated option spellings are not modelled. -/
def parseCompileLoop : List String → String → String → List String →
    Except String CompileArgs
  | [], i, o, specs =>
    if specs = [] then
      .error "the following arguments are required: specification"
    else
      .ok ⟨i, o, specs.reverse⟩
  | t :: rest, i, o, specs =>
    if t = "-i" ∨ t = "--input-codec" then
      match rest with
      | [] => .error "argument -i/--input-codec: expected one argument"
      | v :: rest2 =>
        if v ∈ compileInputCodecChoices then
          parseCompileLoop rest2 v o specs
        else
          .error ("argument -i/--input-codec: invalid choice: " ++ v)
    else if t = "-o" ∨ t = "--output-codec" then
      match rest with
      | [] => .error "argument -o/--output-codec: expected one argument"
      | v :: rest2 =>
        if v ∈ compileOutputCodecChoices then
          parseCompileLoop rest2 i v specs
        else
          .error ("argument -o/--output-codec: invalid choice: " ++ v)
    else if strStarts t "-" ∧ t ≠ "-" then
      .error ("unrecognized arguments: " ++ t)
    else
      parseCompileLoop rest i o (t :: specs)

/-- Entry to the compile argparse model, starting from the defaults. -/
def parseCompileTokens (tokens : List String) : Except String CompileArgs :=
  parseCompileLoop tokens compileInputCodecDefault compileOutputCodecDefault []

/-- Parsed arguments of the convert subcommand of _main. -/
structure ConvertArgs where
  input_codec : String
  output_codec : String
  specification : List String
  type : String
  hexstring : String
deriving DecidableEq, Repr

/-- Option loop of the convert subparser of _main: identical options to the
shell compile parser, collecting positionals in order. -/
def parseConvertLoop : List String → String → String → List String →
    Except String (String × String × List String)
  | [], i, o, ps => .ok (i, o, ps.reverse)
  | t :: rest, i, o, ps =>
    if t = "-i" ∨ t = "--input-codec" then
      match rest with
      | [] => .error "argument -i/--input-codec: expected one argument"
      | v :: rest2 =>
        if v ∈ convertInputCodecChoices then
          parseConvertLoop rest2 v o ps
        else
          .error ("argument -i/--input-codec: invalid choice: " ++ v)
    else if t = "-o" ∨ t = "--output-codec" then
      match rest with
      | [] => .error "argument -o/--output-codec: expected one argument"
      | v :: rest2 =>
        if v ∈ convertOutputCodecChoices then
          parseConvertLoop rest2 i v ps
        else
          .error ("argument -o/--output-codec: invalid choice: " ++ v)
    else if strStarts t "-" ∧ t ≠ "-" then
      .error ("unrecognized arguments: " ++ t)
    else
      parseConvertLoop rest i o (t :: ps)

/-- Argparse model of the convert subparser of _main: options as above; the
positionals are specification (nargs +), then type, then hexstring, so at
least three are required and the last two become type and hexstring. -/
def parseConvertTokens (tokens : List String) : Except String ConvertArgs :=
  match parseConvertLoop tokens convertInputCodecDefault convertOutputCodecDefault [] with
  | .error e => .error e
  | .ok (i, o, ps) =>
    if h : 3 ≤ ps.length then
      .ok ⟨i, o, ps.dropLast.dropLast,
           ps.get ⟨ps.length - 2, by omega⟩,
           ps.get ⟨ps.length - 1, by omega⟩⟩
    else
      .error "the following arguments are required: specification, type, hexstring"

/-- The three shell variables holding the compiled specifications and the
output codec; the shell initializes all of them to None. -/
structure ShellState (V : Type) where
  input_spec : Option (CompiledSpec V)
  output_spec : Option (CompiledSpec V)
  output_codec : Option String

/-- Initial shell state: input_spec, output_spec and output_codec are all
None. -/
def shellInit (V : Type) : ShellState V := ⟨none, none, none⟩

/-- The compiler abstracted: _compile_files parses the specification files
and compiles them for the input and the output codec; it is external to
this repository fragment, so it is an opaque fallible function here. -/
def Compiler (V : Type) : Type :=
  List String → String → String → Except PyErr (CompiledSpec V × CompiledSpec V)

/-- The message printed by the shell convert command when no compiled
specification exists. -/
def noCompiledSpecMsg : String :=
  "No compiled specification found. Please use the " ++
  "\x27compile\x27 command to compile one."

/-- Stdout line of the argparse error path: ArgumentParser.error prints the
usage text and then prog-colon-error-colon-message; only the second line
matters below, the usage text is folded into it. -/
def argparseErrorLine (prog msg : String) : String :=
  prog ++ ": error: " ++ msg

/-- Embedding of _handle_command_compile: the tokens after the command word
are parsed; an ArgumentParserError yields the triple (None, None, None), as
does any exception from compilation, which additionally prints
error-colon str(e); success yields the two compiled specifications and the
output codec. The returned pair is (new triple, stdout lines). -/
def _handle_command_compile {V : Type} (compiler : Compiler V) (line : String) :
    ShellState V × List String :=
  match parseCompileTokens ((pySplit line).drop 1) with
  | .error msg => (⟨none, none, none⟩, [argparseErrorLine "compile" msg])
  | .ok args =>
    match compiler args.specification args.input_codec args.output_codec with
    | .ok (ispec, ospec) =>
      (⟨some ispec, some ospec, some args.output_codec⟩, [])
    | .error e => (⟨none, none, none⟩, ["error: " ++ pyStr e])

/-- Argparse model of the shell convert command: exactly the two
positionals type and hexstring. -/
def parseShellConvertTokens (tokens : List String) :
    Except String (String × String) :=
  match tokens with
  | [ty, hex] =>
    if (strStarts ty "-" ∧ ty ≠ "-") ∨ (strStarts hex "-" ∧ hex ≠ "-") then
      .error "unrecognized arguments"
    else
      .ok (ty, hex)
  | _ => .error "expected the arguments type and hexstring"

/-- Embedding of _handle_command_convert: with no compiled input
specification the no-compiled-specification message is printed before
anything else; otherwise the arguments are parsed (a parse error prints its
diagnostic and returns) and the hexstring is converted, any exception
printing error-colon str(e). The shell sets the three state variables
together, so the arm where only some of them are set cannot be reached in a
shell run. -/
def _handle_command_convert {V : Type} (st : ShellState V) (line : String) :
    List String :=
  match st.input_spec with
  | none => [noCompiledSpecMsg]
  | some ispec =>
    match parseShellConvertTokens ((pySplit line).drop 1) with
    | .error msg => [argparseErrorLine "convert" msg]
    | .ok (ty, hex) =>
      match st.output_spec, st.output_codec with
      | some ospec, some ocodec =>
        match _convert_hexstring ispec ospec ocodec ty hex with
        | .ok out => [out]
        | .error e => ["error: " ++ pyStr e]
      | _, _ => []

/-- Stdout lines of _handle_command_help. -/
def helpLines : List String :=
  ["Commands:", "  compile", "  convert", "  exit", "  help"]

/-- One iteration of the shell loop on a non-EOF input line: the line is
stripped, an empty line does nothing, a line starting with the word compile
replaces the whole state triple with the result of the compile handler, a
line starting with convert runs the convert handler without touching the
state, help and exit are handled verbatim, anything else is reported as not
found. The Bool result is True when the loop continues (exit returns). -/
def shell_step {V : Type} (compiler : Compiler V) (st : ShellState V)
    (line0 : String) : ShellState V × List String × Bool :=
  let line := pyStrip line0
  if line = "" then (st, [], true)
  else if strStarts line "compile" then
    let r := _handle_command_compile compiler line
    (r.1, r.2, true)
  else if strStarts line "convert" then
    (st, _handle_command_convert st line, true)
  else if line = "help" then (st, helpLines, true)
  else if line = "exit" then (st, [], false)
  else (st, [line ++ ": command not found"], true)

/-- The shell loop over a list of input lines, stopping at exit; the result
is the final state and all stdout lines. -/
def shell_run {V : Type} (compiler : Compiler V) :
    ShellState V → List String → ShellState V × List String
  | st, [] => (st, [])
  | st, line :: rest =>
    let r := shell_step compiler st line
    if r.2.2 then
      let t := shell_run compiler r.1 rest
      (t.1, r.2.1 ++ t.2)
    else
      (r.1, r.2.1)

/-- Model of os.path.join for the two-argument call in _do_shell. -/
def ospath_join (a b : String) : String :=
  if strStarts b "/" then b
  else if a = "" then b
  else if strEnds a "/" then a ++ b
  else a ++ "/" ++ b

/-- The history file path opened by _do_shell: the home directory joined
with the file name .asn1tools-history.txt. -/
def historyPath (home : String) : String :=
  ospath_join home ".asn1tools-history.txt"

/-- The CLI subcommands of _main. -/
inductive Subcommand where
  | convert
  | shell
deriving DecidableEq, Repr

/-- Modelled from the spec: the only file opened for writing by any CLI
code path. The convert subcommand and _main only print to stdout and
stderr; the spec states that the codec core performs no I/O and that the
shell history (the missing prompt_toolkit FileHistory) is the sole
persisted state, an append-only file. -/
inductive FileEffect where
  | openAppend (path : String)
deriving DecidableEq, Repr

/-- File effects of _do_convert: none; it reads stdin and prints. -/
def do_convert_file_effects : List FileEffect := []

/-- File effects of _do_shell: exactly the FileHistory open of the history
file under the user home directory. -/
def do_shell_file_effects (home : String) : List FileEffect :=
  [.openAppend (historyPath home)]

/-- File effects of a whole _main invocation, by subcommand. -/
def main_file_effects (sub : Subcommand) (home : String) : List FileEffect :=
  match sub with
  | .convert => do_convert_file_effects
  | .shell => do_shell_file_effects home

/-- The constant ENCODED_MESSAGE_UPER of examples/benchmarks/codecs.py,
byte for byte. -/
def ENCODED_MESSAGE_UPER : List Nat :=
  [0x04, 0x81, 0x3f, 0xbe, 0x2a, 0x64, 0x12, 0xb2, 0xf3, 0x3a, 0x24, 0x2a,
   0x80, 0x02, 0x02, 0x9b, 0x29, 0x8a, 0x7f, 0xf8, 0x24, 0x00, 0x00, 0x11,
   0x00, 0x24, 0xe2, 0x08, 0x05, 0x06, 0xc3, 0xc4, 0x76, 0x92, 0x81, 0x41,
   0x00, 0xc0, 0x00, 0x00, 0x0b, 0x23, 0xfd, 0x10, 0x80, 0xca, 0x19, 0x82,
   0x80, 0x48, 0xd1, 0x59, 0xe2, 0x43, 0xa0, 0x1a, 0x20, 0x23, 0x34, 0x12,
   0x34, 0x32, 0x12, 0x48, 0xcf, 0x10, 0xa8, 0x6a, 0x4c, 0x04, 0x48]

/-- Concrete specification whose decode always succeeds: the convert glue
behaves the same for every specification when unhexlify already fails. -/
def dummySpec : CompiledSpec Unit :=
  ⟨fun _ _ => .ok (), fun _ _ _ => .ok []⟩

/-- Concrete specification whose decode always raises a DecodeError. -/
def decodeFailSpec : CompiledSpec Unit :=
  ⟨fun _ _ => .error (.decodeError "out of data"), fun _ _ _ => .ok []⟩

/-- Concrete compiler that always raises. -/
def failCompiler : Compiler Unit := fun _ _ _ => .error (.other "boom")

/-- Failure of the shell compile command on a line: either its argument
parsing raises ArgumentParserError or the compilation raises. -/
def compileFails {V : Type} (compiler : Compiler V) (line : String) : Prop :=
  (∃ msg, parseCompileTokens ((pySplit line).drop 1) = .error msg) ∨
  (∃ args e, parseCompileTokens ((pySplit line).drop 1) = .ok args ∧
    compiler args.specification args.input_codec args.output_codec = .error e)

/-- Invariants of the convert option loop: the accepted input and output
codecs either stay at their start value or come from the respective choices
list, and they stay untouched when the corresponding option tokens are
absent from the token list. -/
theorem parseConvertLoop_tracks : ∀ (tokens : List String) (i o : String)
    (ps : List String) (r : String × String × List String),
    parseConvertLoop tokens i o ps = .ok r →
    (r.1 = i ∨ r.1 ∈ convertInputCodecChoices) ∧
    (r.2.1 = o ∨ r.2.1 ∈ convertOutputCodecChoices) ∧
    ("-i" ∉ tokens ∧ "--input-codec" ∉ tokens → r.1 = i) ∧
    ("-o" ∉ tokens ∧ "--output-codec" ∉ tokens → r.2.1 = o)
  | [], i, o, ps, r => by
    intro h
    unfold parseConvertLoop at h
    simp only [Except.ok.injEq] at h
    subst h
    exact ⟨Or.inl rfl, Or.inl rfl, fun _ => rfl, fun _ => rfl⟩
  | t :: rest, i, o, ps, r => by
    intro h
    unfold parseConvertLoop at h
    split at h
    · rename_i h1
      split at h
      · exact absurd h (by simp)
      · rename_i v rest2
        split at h
        · rename_i h2
          obtain ⟨hi, ho, _, hno⟩ := parseConvertLoop_tracks rest2 v o ps r h
          refine ⟨?_, ho, ?_, ?_⟩
          · rcases hi with h3 | h3
            · exact Or.inr (h3 ▸ h2)
            · exact Or.inr h3
          · rintro ⟨ha, hb⟩
            exfalso
            rcases h1 with h1 | h1 <;> subst h1
            · exact ha (List.mem_cons_self _ _)
            · exact hb (List.mem_cons_self _ _)
          · rintro ⟨ha, hb⟩
            exact hno ⟨fun hm => ha (List.mem_cons_of_mem _ (List.mem_cons_of_mem _ hm)),
                       fun hm => hb (List.mem_cons_of_mem _ (List.mem_cons_of_mem _ hm))⟩
        · exact absurd h (by simp)
    · rename_i h1
      split at h
      · rename_i h2
        split at h
        · exact absurd h (by simp)
        · rename_i v rest2
          split at h
          · rename_i h3
            obtain ⟨hi, ho, hni, _⟩ := parseConvertLoop_tracks rest2 i v ps r h
            refine ⟨hi, ?_, ?_, ?_⟩
            · rcases ho with h4 | h4
              · exact Or.inr (h4 ▸ h3)
              · exact Or.inr h4
            · rintro ⟨ha, hb⟩
              exact hni ⟨fun hm => ha (List.mem_cons_of_mem _ (List.mem_cons_of_mem _ hm)),
                         fun hm => hb (List.mem_cons_of_mem _ (List.mem_cons_of_mem _ hm))⟩
            · rintro ⟨ha, hb⟩
              exfalso
              rcases h2 with h2 | h2 <;> subst h2
              · exact ha (List.mem_cons_self _ _)
              · exact hb (List.mem_cons_self _ _)
          · exact absurd h (by simp)
      · rename_i h2
        split at h
        · exact absurd h (by simp)
        · obtain ⟨hi, ho, hni, hno⟩ := parseConvertLoop_tracks rest i o (t :: ps) r h
          refine ⟨hi, ho, ?_, ?_⟩
          · rintro ⟨ha, hb⟩
            exact hni ⟨fun hm => ha (List.mem_cons_of_mem _ hm),
                       fun hm => hb (List.mem_cons_of_mem _ hm)⟩
          · rintro ⟨ha, hb⟩
            exact hno ⟨fun hm => ha (List.mem_cons_of_mem _ hm),
                       fun hm => hb (List.mem_cons_of_mem _ hm)⟩

/-- Invariants of the shell compile option loop, as for the convert
loop. -/
theorem parseCompileLoop_tracks : ∀ (tokens : List String) (i o : String)
    (ps : List String) (r : CompileArgs),
    parseCompileLoop tokens i o ps = .ok r →
    (r.input_codec = i ∨ r.input_codec ∈ compileInputCodecChoices) ∧
    (r.output_codec = o ∨ r.output_codec ∈ compileOutputCodecChoices) ∧
    ("-i" ∉ tokens ∧ "--input-codec" ∉ tokens → r.input_codec = i) ∧
    ("-o" ∉ tokens ∧ "--output-codec" ∉ tokens → r.output_codec = o)
  | [], i, o, ps, r => by
    intro h
    unfold parseCompileLoop at h
    split at h
    · exact absurd h (by simp)
    · simp only [Except.ok.injEq] at h
      subst h
      exact ⟨Or.inl rfl, Or.inl rfl, fun _ => rfl, fun _ => rfl⟩
  | t :: rest, i, o, ps, r => by
    intro h
    unfold parseCompileLoop at h
    split at h
    · rename_i h1
      split at h
      · exact absurd h (by simp)
      · rename_i v rest2
        split at h
        · rename_i h2
          obtain ⟨hi, ho, _, hno⟩ := parseCompileLoop_tracks rest2 v o ps r h
          refine ⟨?_, ho, ?_, ?_⟩
          · rcases hi with h3 | h3
            · exact Or.inr (h3 ▸ h2)
            · exact Or.inr h3
          · rintro ⟨ha, hb⟩
            exfalso
            rcases h1 with h1 | h1 <;> subst h1
            · exact ha (List.mem_cons_self _ _)
            · exact hb (List.mem_cons_self _ _)
          · rintro ⟨ha, hb⟩
            exact hno ⟨fun hm => ha (List.mem_cons_of_mem _ (List.mem_cons_of_mem _ hm)),
                       fun hm => hb (List.mem_cons_of_mem _ (List.mem_cons_of_mem _ hm))⟩
        · exact absurd h (by simp)
    · rename_i h1
      split at h
      · rename_i h2
        split at h
        · exact absurd h (by simp)
        · rename_i v rest2
          split at h
          · rename_i h3
            obtain ⟨hi, ho, hni, _⟩ := parseCompileLoop_tracks rest2 i v ps r h
            refine ⟨hi, ?_, ?_, ?_⟩
            · rcases ho with h4 | h4
              · exact Or.inr (h4 ▸ h3)
              · exact Or.inr h4
            · rintro ⟨ha, hb⟩
              exact hni ⟨fun hm => ha (List.mem_cons_of_mem _ (List.mem_cons_of_mem _ hm)),
                         fun hm => hb (List.mem_cons_of_mem _ (List.mem_cons_of_mem _ hm))⟩
            · rintro ⟨ha, hb⟩
              exfalso
              rcases h2 with h2 | h2 <;> subst h2
              · exact ha (List.mem_cons_self _ _)
              · exact hb (List.mem_cons_self _ _)
          · exact absurd h (by simp)
      · rename_i h2
        split at h
        · exact absurd h (by simp)
        · obtain ⟨hi, ho, hni, hno⟩ := parseCompileLoop_tracks rest i o (t :: ps) r h
          refine ⟨hi, ho, ?_, ?_⟩
          · rintro ⟨ha, hb⟩
            exact hni ⟨fun hm => ha (List.mem_cons_of_mem _ hm),
                       fun hm => hb (List.mem_cons_of_mem _ hm)⟩
          · rintro ⟨ha, hb⟩
            exact hno ⟨fun hm => ha (List.mem_cons_of_mem _ hm),
                       fun hm => hb (List.mem_cons_of_mem _ hm)⟩

/-- C2: without the --debug flag any exception from the selected subcommand
makes the process print error-colon str(e) to stderr and exit with code 1;
with --debug the exception propagates out of _main; a normal return exits
with code 0. -/
theorem main_error_handling :
    (∀ e, main_run false (.error e) =
      .exited 1 (some ("error: " ++ pyStr e))) ∧
    (∀ e, main_run true (.error e) = .raised e) ∧
    ∀ debug, main_run debug (.ok ()) = .exited 0 none := by
  refine ⟨fun e => rfl, fun e => rfl, fun debug => ?_⟩
  cases debug <;> rfl

/-- C3 counterexample: the constant ENCODED_MESSAGE_UPER holds 71 bytes,
not the claimed 72. -/
theorem ENCODED_MESSAGE_UPER_not_72_bytes :
    ENCODED_MESSAGE_UPER.length = 71 ∧
    ENCODED_MESSAGE_UPER.length ≠ 72 := by decide

/-- C3 (amended): ENCODED_MESSAGE_UPER is exactly 71 bytes long and begins
with the bytes 04 81 3F BE 2A 64 12 B2 F3 3A 24. -/
theorem ENCODED_MESSAGE_UPER_len_and_start :
    ENCODED_MESSAGE_UPER.length = 71 ∧
    ENCODED_MESSAGE_UPER.take 11 =
      [0x04, 0x81, 0x3f, 0xbe, 0x2a, 0x64, 0x12, 0xb2, 0xf3, 0x3a, 0x24] := by
  decide

/-- C5: the --verbose flag accepts exactly 0, 1 and 2; it selects
logging.CRITICAL (all program logging disabled) for 0, WARNING for 1 and
DEBUG for 2, and its default is 1, hence WARNING. -/
theorem verbose_levels :
    (∀ v, verboseAccepted v ↔ v = 0 ∨ v = 1 ∨ v = 2) ∧
    logLevelOf 0 = some .critical ∧
    logLevelOf 1 = some .warning ∧
    logLevelOf 2 = some .debug ∧
    verboseDefault = 1 ∧
    logLevelOf verboseDefault = some .warning := by
  refine ⟨fun v => ?_, rfl, rfl, rfl, rfl, rfl⟩
  simp [verboseAccepted, verboseChoices]

/-- C5 witness: the default verbosity 1 is among the accepted values. -/
theorem verbose_levels_witness : verboseAccepted 1 :=
  (verbose_levels.1 1).mpr (Or.inr (Or.inl rfl))

/-- C7: the only file any CLI code path opens for writing is the shell
history file, the home directory joined with .asn1tools-history.txt; the
shell opens exactly that path and the convert subcommand opens no file. -/
theorem persisted_state_only_history (home : String) :
    main_file_effects .shell home = [.openAppend (historyPath home)] ∧
    main_file_effects .convert home = [] ∧
    ∀ sub fe, fe ∈ main_file_effects sub home →
      fe = .openAppend (historyPath home) := by
  refine ⟨rfl, rfl, ?_⟩
  intro sub fe hfe
  cases sub with
  | convert => simp [main_file_effects, do_convert_file_effects] at hfe
  | shell =>
    simpa [main_file_effects, do_shell_file_effects] using hfe

/-- C7 witness: for a concrete home directory, the shell file effect is the
open of exactly the history file path. -/
theorem persisted_state_only_history_witness :
    FileEffect.openAppend "/home/user/.asn1tools-history.txt" =
      .openAppend (historyPath "/home/user") :=
  (persisted_state_only_history "/home/user").2.2 .shell
    (.openAppend "/home/user/.asn1tools-history.txt") (by decide)

/-- C9: in stdin convert mode a non-empty line whose hexstring conversion
fails (unhexlify raises) is echoed alone with no diagnostic, an empty line
is echoed unchanged with no conversion attempted (the result does not
depend on the compiled specification), and both cases continue with the
remaining lines. -/
theorem stdin_bad_hex_and_empty {V : Type} (ispec ospec : CompiledSpec V)
    (oc ty line : String) (rest : List String) :
    (∀ msg, stripCRLF line ≠ "" → unhexlify (stripCRLF line) = .error msg →
      do_convert_stdin ispec ospec oc ty (line :: rest) =
        ((stripCRLF line) :: (do_convert_stdin ispec ospec oc ty rest).1,
          (do_convert_stdin ispec ospec oc ty rest).2)) ∧
    (stripCRLF line = "" →
      do_convert_stdin ispec ospec oc ty (line :: rest) =
        ("" :: (do_convert_stdin ispec ospec oc ty rest).1,
          (do_convert_stdin ispec ospec oc ty rest).2)) := by
  constructor
  · intro msg hne hhex
    have hconv : _convert_hexstring ispec ospec oc ty (stripCRLF line) =
        .error (.typeError ("\x27" ++ stripCRLF line ++ "\x27: " ++ msg)) := by
      unfold _convert_hexstring
      rw [hhex]
    conv_lhs => unfold do_convert_stdin
    simp only [if_neg hne, hconv]
  · intro he
    conv_lhs => unfold do_convert_stdin
    simp [he]

/-- C9 witness: a concrete bad-hex line and a concrete empty line, echoed
with nothing else and the loop finished normally. -/
theorem stdin_bad_hex_and_empty_witness :
    do_convert_stdin dummySpec dummySpec "gser" "T" ["zz"] = (["zz"], none) ∧
    do_convert_stdin dummySpec dummySpec "gser" "T" [""] = ([""], none) := by
  constructor
  · have h := (stdin_bad_hex_and_empty dummySpec dummySpec "gser" "T" "zz"
      ([] : List String)).1 "Non-hexadecimal digit found" (by decide) (by decide)
    rw [h]; decide
  · have h := (stdin_bad_hex_and_empty dummySpec dummySpec "gser" "T" ""
      ([] : List String)).2 (by decide)
    rw [h]; decide

/-- C1 counterexample: with HEXSTRING dash, the input line zz fails to
convert (unhexlify raises, re-raised as TypeError), yet the program echoes
only the line: the diagnostic of the failure appears nowhere in the
output, refuting the claim that every failing line is followed by its
diagnostic. -/
theorem stdin_failed_line_no_diag_cex :
    _convert_hexstring dummySpec dummySpec "gser" "T" "zz" =
      .error (.typeError "\x27zz\x27: Non-hexadecimal digit found") ∧
    do_convert_stdin dummySpec dummySpec "gser" "T" ["zz"] = (["zz"], none) ∧
    "\x27zz\x27: Non-hexadecimal digit found" ∉
      (do_convert_stdin dummySpec dummySpec "gser" "T" ["zz"]).1 := by
  refine ⟨by decide, by decide, by decide⟩

/-- C1 (amended): with HEXSTRING dash one value is consumed per stdin
line; a line whose conversion fails with a DecodeError is echoed followed
by the diagnostic str(e); a line whose conversion fails with a TypeError
(bad hexstring) is echoed without a diagnostic; processing continues with
the remaining lines in both cases. -/
theorem stdin_failed_line_behaviour {V : Type} (ispec ospec : CompiledSpec V)
    (oc ty line : String) (rest : List String)
    (hne : stripCRLF line ≠ "") :
    (∀ m, _convert_hexstring ispec ospec oc ty (stripCRLF line) =
        .error (.decodeError m) →
      do_convert_stdin ispec ospec oc ty (line :: rest) =
        ((stripCRLF line) :: m :: (do_convert_stdin ispec ospec oc ty rest).1,
          (do_convert_stdin ispec ospec oc ty rest).2)) ∧
    (∀ m, _convert_hexstring ispec ospec oc ty (stripCRLF line) =
        .error (.typeError m) →
      do_convert_stdin ispec ospec oc ty (line :: rest) =
        ((stripCRLF line) :: (do_convert_stdin ispec ospec oc ty rest).1,
          (do_convert_stdin ispec ospec oc ty rest).2)) := by
  constructor <;> intro m hconv <;>
    (conv_lhs => unfold do_convert_stdin) <;> simp only [if_neg hne, hconv]

/-- C1 witness: a line that decodes with a DecodeError is echoed and then
followed by exactly the diagnostic. -/
theorem stdin_failed_line_behaviour_witness :
    do_convert_stdin decodeFailSpec dummySpec "gser" "T" ["0102"] =
      (["0102", "out of data"], none) := by
  have h := (stdin_failed_line_behaviour decodeFailSpec dummySpec "gser" "T"
    "0102" ([] : List String) (by decide)).1 "out of data" (by decide)
  rw [h]; decide

/-- Successful convert argparse runs expose a successful option loop run
starting from the defaults. -/
theorem parseConvertTokens_ok {tokens : List String} {a : ConvertArgs}
    (h : parseConvertTokens tokens = .ok a) :
    ∃ ps, parseConvertLoop tokens convertInputCodecDefault
      convertOutputCodecDefault [] = .ok (a.input_codec, a.output_codec, ps) := by
  unfold parseConvertTokens at h
  split at h
  · exact absurd h (by simp)
  · rename_i i o ps heq
    split at h
    · simp only [Except.ok.injEq] at h
      subst h
      exact ⟨ps, heq⟩
    · exact absurd h (by simp)

/-- C4: both the convert subparser and the shell compile parser accept
exactly ber, der, per, uper, jer, xer as input codecs and exactly those
plus gser as output codecs; -i gser is rejected, no successful parse ever
carries input codec gser, and each of the seven names is accepted by -o. -/
theorem codec_choices_exact :
    (∀ c, c ∈ convertInputCodecChoices ↔
      c ∈ (["ber", "der", "per", "uper", "jer", "xer"] : List String)) ∧
    (∀ c, c ∈ compileInputCodecChoices ↔
      c ∈ (["ber", "der", "per", "uper", "jer", "xer"] : List String)) ∧
    (∀ c, c ∈ convertOutputCodecChoices ↔
      c ∈ (["ber", "der", "per", "uper", "jer", "xer", "gser"] : List String)) ∧
    (∀ c, c ∈ compileOutputCodecChoices ↔
      c ∈ (["ber", "der", "per", "uper", "jer", "xer", "gser"] : List String)) ∧
    parseConvertTokens ["-i", "gser", "a.asn", "T", "00"] =
      .error "argument -i/--input-codec: invalid choice: gser" ∧
    parseCompileTokens ["-i", "gser", "a.asn"] =
      .error "argument -i/--input-codec: invalid choice: gser" ∧
    (∀ tokens a, parseConvertTokens tokens = .ok a → a.input_codec ≠ "gser") ∧
    (∀ tokens a, parseCompileTokens tokens = .ok a → a.input_codec ≠ "gser") ∧
    (∀ c, c ∈ convertOutputCodecChoices →
      parseConvertTokens ["-o", c, "a.asn", "T", "00"] =
        .ok ⟨"ber", c, ["a.asn"], "T", "00"⟩) ∧
    (∀ c, c ∈ compileOutputCodecChoices →
      parseCompileTokens ["-o", c, "a.asn"] = .ok ⟨"ber", c, ["a.asn"]⟩) := by
  refine ⟨?_, ?_, ?_, ?_, by decide, by decide, ?_, ?_, ?_, ?_⟩
  · intro c
    simp only [convertInputCodecChoices, List.mem_cons, List.not_mem_nil, or_false]
    tauto
  · intro c
    simp only [compileInputCodecChoices, List.mem_cons, List.not_mem_nil, or_false]
    tauto
  · intro c
    simp only [convertOutputCodecChoices, List.mem_cons, List.not_mem_nil, or_false]
    tauto
  · intro c
    simp only [compileOutputCodecChoices, List.mem_cons, List.not_mem_nil, or_false]
    tauto
  · intro tokens a h
    obtain ⟨ps, heq⟩ := parseConvertTokens_ok h
    rcases (parseConvertLoop_tracks tokens _ _ [] _ heq).1 with h1 | h1
    · simp only at h1
      rw [h1]
      decide
    · simp only at h1
      intro hg
      rw [hg] at h1
      exact absurd h1 (by decide)
  · intro tokens a h
    rcases (parseCompileLoop_tracks tokens _ _ [] a h).1 with h1 | h1
    · rw [h1]
      decide
    · intro hg
      rw [hg] at h1
      exact absurd h1 (by decide)
  · intro c hc
    fin_cases hc <;> decide
  · intro c hc
    fin_cases hc <;> decide

/-- C4 witness: a concrete accepted -i uper parse does not carry gser, and
-o gser is accepted by the shell compile parser. -/
theorem codec_choices_exact_witness :
    ("uper" : String) ≠ "gser" ∧
    parseCompileTokens ["-o", "gser", "a.asn"] =
      .ok ⟨"ber", "gser", ["a.asn"]⟩ :=
  ⟨codec_choices_exact.2.2.2.2.2.2.2.1 ["-i", "uper", "a.asn"]
      ⟨"uper", "gser", ["a.asn"]⟩ (by decide),
   codec_choices_exact.2.2.2.2.2.2.2.2.2 "gser" (by decide)⟩

/-- C10: the configured defaults are ber for the input codec and gser for
the output codec in both the convert subparser and the shell compile
parser, and every successful parse whose token list omits the respective
option keeps those defaults. -/
theorem codec_defaults :
    convertInputCodecDefault = "ber" ∧ convertOutputCodecDefault = "gser" ∧
    compileInputCodecDefault = "ber" ∧ compileOutputCodecDefault = "gser" ∧
    (∀ tokens a, parseConvertTokens tokens = .ok a →
      ("-i" ∉ tokens ∧ "--input-codec" ∉ tokens → a.input_codec = "ber") ∧
      ("-o" ∉ tokens ∧ "--output-codec" ∉ tokens → a.output_codec = "gser")) ∧
    (∀ tokens a, parseCompileTokens tokens = .ok a →
      ("-i" ∉ tokens ∧ "--input-codec" ∉ tokens → a.input_codec = "ber") ∧
      ("-o" ∉ tokens ∧ "--output-codec" ∉ tokens → a.output_codec = "gser")) := by
  refine ⟨rfl, rfl, rfl, rfl, ?_, ?_⟩
  · intro tokens a h
    obtain ⟨ps, heq⟩ := parseConvertTokens_ok h
    have ht := parseConvertLoop_tracks tokens _ _ [] _ heq
    exact ⟨fun hni => ht.2.2.1 hni, fun hno => ht.2.2.2 hno⟩
  · intro tokens a h
    have ht := parseCompileLoop_tracks tokens _ _ [] a h
    exact ⟨fun hni => ht.2.2.1 hni, fun hno => ht.2.2.2 hno⟩

/-- C10 witness: a flagless convert invocation parses to ber and gser. -/
theorem codec_defaults_witness :
    parseConvertTokens ["a.asn", "T", "00"] =
      .ok ⟨"ber", "gser", ["a.asn"], "T", "00"⟩ ∧
    ("ber" : String) = "ber" ∧ ("gser" : String) = "gser" := by
  have h := codec_defaults.2.2.2.2.1 ["a.asn", "T", "00"]
    ⟨"ber", "gser", ["a.asn"], "T", "00"⟩ (by decide)
  exact ⟨by decide, h.1 ⟨by decide, by decide⟩, h.2 ⟨by decide, by decide⟩⟩

/-- Helper: a string starting with the word compile is not empty. -/
theorem strStarts_compile_ne_empty {s : String}
    (h : strStarts s "compile" = true) : s ≠ "" := by
  intro he
  subst he
  exact absurd h (by decide)

/-- Helper: a string starting with the word convert is not empty. -/
theorem strStarts_convert_ne_empty {s : String}
    (h : strStarts s "convert" = true) : s ≠ "" := by
  intro he
  subst he
  exact absurd h (by decide)

/-- When no compiled specification is held, every dispatched convert line
prints exactly the no-compiled-specification message and the state is
unchanged, over a whole run. -/
theorem shell_convert_no_spec_run {V : Type} (compiler : Compiler V)
    (st : ShellState V) (hst : st.input_spec = none) :
    ∀ ls : List String,
      (∀ l ∈ ls, strStarts (pyStrip l) "convert" = true ∧
        strStarts (pyStrip l) "compile" = false) →
      shell_run compiler st ls = (st, ls.map fun _ => noCompiledSpecMsg)
  | [], _ => by
    unfold shell_run
    rfl
  | l :: ls, hls => by
    have hl := hls l (List.mem_cons_self _ _)
    have hne : pyStrip l ≠ "" := strStarts_convert_ne_empty hl.1
    have hstep : shell_step compiler st l = (st, [noCompiledSpecMsg], true) := by
      simp [shell_step, _handle_command_convert, hne, hl.1, hl.2, hst]
    have ih := shell_convert_no_spec_run compiler st hst ls
      (fun x hx => hls x (List.mem_cons_of_mem _ hx))
    unfold shell_run
    simp [hstep, ih]

/-- C8: a shell compile command that fails, by an argument parse error or
by a compilation exception, discards any previously compiled
specification: the state triple becomes all None, and every following
dispatched convert command prints only the no-compiled-specification
message while leaving the state unchanged. -/
theorem failed_compile_discards {V : Type} (compiler : Compiler V)
    (st : ShellState V) (line : String)
    (hc : strStarts (pyStrip line) "compile" = true)
    (hf : compileFails compiler (pyStrip line)) :
    (shell_step compiler st line).1.input_spec = none ∧
    ∀ convLines : List String,
      (∀ l ∈ convLines, strStarts (pyStrip l) "convert" = true ∧
        strStarts (pyStrip l) "compile" = false) →
      shell_run compiler (shell_step compiler st line).1 convLines =
        ((shell_step compiler st line).1,
          convLines.map fun _ => noCompiledSpecMsg) := by
  have hne : pyStrip line ≠ "" := strStarts_compile_ne_empty hc
  have hcomp : (_handle_command_compile compiler (pyStrip line)).1.input_spec
      = none := by
    unfold _handle_command_compile
    rcases hf with ⟨msg, hmsg⟩ | ⟨args, e, hargs, he⟩
    · rw [hmsg]
    · rw [hargs]
      simp only [he]
  have hstep1 : (shell_step compiler st line).1 =
      (_handle_command_compile compiler (pyStrip line)).1 := by
    simp [shell_step, hne, hc]
  constructor
  · rw [hstep1]
    exact hcomp
  · intro convLines hconv
    exact shell_convert_no_spec_run compiler _
      (by rw [hstep1]; exact hcomp) convLines hconv

/-- C8 witness: after a compile line whose compilation raises, the state
holds no input specification and a following convert line prints only the
no-compiled-specification message. -/
theorem failed_compile_discards_witness :
    (shell_step failCompiler (shellInit Unit) "compile a.asn").1.input_spec
      = none ∧
    shell_run failCompiler
        (shell_step failCompiler (shellInit Unit) "compile a.asn").1
        ["convert T 00"] =
      ((shell_step failCompiler (shellInit Unit) "compile a.asn").1,
        [noCompiledSpecMsg]) := by
  have h := failed_compile_discards failCompiler (shellInit Unit)
    "compile a.asn" (by decide)
    (Or.inr ⟨⟨"ber", "gser", ["a.asn"]⟩, .other "boom", by decide, rfl⟩)
  exact ⟨h.1, by simpa using h.2 ["convert T 00"] (by decide)⟩

end Asn1tools
